import Mathlib

/-!
Verification of the QR-scanner scan-persistence layer and its HTTP-style
route handlers, embedded shallowly from the TypeScript source.

The embedding models:
* the `scans` SQLite table as a Lean structure `DB` (a flag for table
  existence, the AUTOINCREMENT counter, and the list of rows);
* the expo-sqlite persistence functions `initDatabase`, `addScan`,
  `getScans`, `deleteScan` (simple variant) and their guarded variants
  (the file that re-runs `initDatabase` before each operation);
* the better-sqlite3 route handlers GET/DELETE/PUT of `/scans/{id}`,
  including JavaScript `parseInt` semantics for the id path parameter and
  the JavaScript `x || null` falsy coalescing used when binding SQL
  parameters;
* the capture flow `handleBarCodeScanned` / `saveScanToDatabase` as a
  function from the outcome of the POST request to the observable effects
  (logs, notifications, alerts).

SQL `REAL` columns are modelled as `Option Rat`, `INTEGER` as `Int`/`Nat`,
`TEXT` as `String`; a NULL-able column is an `Option`.  `ORDER BY
timestamp DESC` is modelled as sorting with the comparator
"timestamp greater or equal".
-/

namespace QRScanner

/-- A row of the `scans` table.  Schema: `id INTEGER PRIMARY KEY
AUTOINCREMENT, qr_data TEXT NOT NULL, latitude REAL, longitude REAL,
altitude REAL, accuracy REAL, timestamp INTEGER NOT NULL, created_at
DATETIME DEFAULT CURRENT_TIMESTAMP`.  NOT NULL columns are non-optional
fields. -/
structure ScanRecord where
  id : Nat
  qr_data : String
  latitude : Option Rat
  longitude : Option Rat
  altitude : Option Rat
  accuracy : Option Rat
  timestamp : Int
  created_at : String
  deriving DecidableEq, Repr

/-- The state of the SQLite database file: whether the `scans` table
exists, the next AUTOINCREMENT id, and the stored rows. -/
structure DB where
  tableExists : Bool
  nextId : Nat
  scans : List ScanRecord
  deriving DecidableEq, Repr

/-- A database file in which the `scans` table has not been created. -/
def dbEmpty : DB :=
  { tableExists := false, nextId := 1, scans := [] }

/-- `initDatabase` (both variants): `CREATE TABLE IF NOT EXISTS scans
(...)`.  Creates an empty table when absent, leaves everything unchanged
when present. -/
def initDatabase (s : DB) : DB :=
  if s.tableExists then s
  else { tableExists := true, nextId := 1, scans := [] }

/-- JavaScript `x || null` applied to a nullable number: any falsy value
(absent/null, or the number `0`) becomes null. -/
def jsOrNullNum : Option Rat → Option Rat
  | some q => if q = 0 then none else some q
  | none => none

/-- JavaScript `x || null` applied to a nullable string: any falsy value
(absent/null, or the empty string) becomes null. -/
def jsOrNullStr : Option String → Option String
  | some v => if v = "" then none else some v
  | none => none

/-- The argument of `addScan`: `{qr_data, latitude?, longitude?,
altitude?, accuracy?, timestamp}` (the record without `id` and
`created_at`). -/
structure ScanInput where
  qr_data : String
  latitude : Option Rat
  longitude : Option Rat
  altitude : Option Rat
  accuracy : Option Rat
  timestamp : Int
  deriving DecidableEq, Repr

/-- The row inserted by `addScan` (simple variant): optional numeric
fields are bound as `scanData.latitude || null` etc., `created_at` is
assigned by the database (`CURRENT_TIMESTAMP`, the `now` argument), the
id by AUTOINCREMENT. -/
def mkScanRow (inp : ScanInput) (now : String) (id0 : Nat) : ScanRecord :=
  { id := id0
    qr_data := inp.qr_data
    latitude := jsOrNullNum inp.latitude
    longitude := jsOrNullNum inp.longitude
    altitude := jsOrNullNum inp.altitude
    accuracy := jsOrNullNum inp.accuracy
    timestamp := inp.timestamp
    created_at := now }

/-- The database state after a successful `addScan`. -/
def addScanDB (inp : ScanInput) (now : String) (s : DB) : DB :=
  { s with
    nextId := s.nextId + 1
    scans := s.scans ++ [mkScanRow inp now s.nextId] }

/-- `addScan` (simple variant, expo-sqlite): INSERT followed by a SELECT
of the inserted row, resolving with the stored row; the SQL fails (the
promise rejects) when the `scans` table does not exist. -/
def addScan (inp : ScanInput) (now : String) (s : DB) :
    Except String (ScanRecord × DB) :=
  if s.tableExists then
    .ok (mkScanRow inp now s.nextId, addScanDB inp now s)
  else .error ("no such table: scans")

/-- `r` sorts before `r2` under `ORDER BY timestamp DESC` when its
timestamp is at least as large. -/
def tsGE (a b : ScanRecord) : Prop :=
  b.timestamp ≤ a.timestamp

instance : DecidableRel tsGE := fun a b =>
  inferInstanceAs (Decidable (b.timestamp ≤ a.timestamp))

instance : IsTotal ScanRecord tsGE :=
  ⟨fun a b => le_total b.timestamp a.timestamp⟩

instance : IsTrans ScanRecord tsGE :=
  ⟨fun _ _ _ h1 h2 => le_trans h2 h1⟩

/-- The result order of `SELECT * FROM scans ORDER BY timestamp DESC`:
a sort of the rows that is descending in timestamp (ties in an
unspecified but fixed order). -/
def sortByTimestampDesc (l : List ScanRecord) : List ScanRecord :=
  List.insertionSort tsGE l

/-- `getScans` (simple variant): `SELECT * FROM scans ORDER BY timestamp
DESC`; rejects when the table does not exist. -/
def getScans (s : DB) : Except String (List ScanRecord) :=
  if s.tableExists then .ok (sortByTimestampDesc s.scans)
  else .error ("no such table: scans")

/-- `getScans` (guarded variant): awaits `initDatabase` first, then runs
the same SELECT, so it cannot fail on a missing table. -/
def getScansGuarded (s : DB) : List ScanRecord × DB :=
  let s1 := initDatabase s
  (sortByTimestampDesc s1.scans, s1)

/-- `deleteScan` (simple variant): runs `DELETE FROM scans WHERE id = ?`
and resolves `true` whenever the statement executes without a SQL error
(regardless of how many rows matched), `false` on a SQL error (missing
table). -/
def deleteScan (id : Nat) (s : DB) : Bool × DB :=
  if s.tableExists then
    (true, { s with scans := s.scans.filter (fun r => r.id != id) })
  else (false, s)

/-- `deleteScan` (guarded variant): awaits `initDatabase`, runs the same
DELETE and resolves `result.rowsAffected > 0`. -/
def deleteScanGuarded (id : Nat) (s : DB) : Bool × DB :=
  let s1 := initDatabase s
  let changed := s1.scans.countP (fun r => r.id == id)
  (decide (0 < changed),
   { s1 with scans := s1.scans.filter (fun r => r.id != id) })

/-! ### JavaScript `parseInt` -/

/-- The whitespace characters `parseInt` strips from the front. -/
def jsWhitespace (c : Char) : Bool :=
  c = ' ' || c = '\t' || c = '\n' || c = '\r' || c = '\x0b' || c = '\x0c'

/-- The numeric value of a digit character in the given radix, if any. -/
def digitVal (radix : Nat) (c : Char) : Option Nat :=
  let v : Option Nat :=
    if '0' ≤ c ∧ c ≤ '9' then some (c.toNat - Char.toNat '0')
    else if 'a' ≤ c ∧ c ≤ 'z' then some (c.toNat - Char.toNat 'a' + 10)
    else if 'A' ≤ c ∧ c ≤ 'Z' then some (c.toNat - Char.toNat 'A' + 10)
    else none
  match v with
  | some n => if n < radix then some n else none
  | none => none

/-- The value of the longest digit prefix of `cs` in the given radix;
`none` when no digit at all was consumed (`seen` records whether one
was). -/
def digitsVal (radix : Nat) : List Char → Nat → Bool → Option Nat
  | [], acc, seen => if seen then some acc else none
  | c :: rest, acc, seen =>
    match digitVal radix c with
    | some d => digitsVal radix rest (acc * radix + d) true
    | none => if seen then some acc else none

/-- JavaScript `parseInt(s)` with the radix argument omitted: strip
leading whitespace, read an optional sign, detect a `0x`/`0X` hex prefix
(radix 16, else 10), then take the longest valid digit prefix; `none`
models `NaN`. -/
def parseInt (s : String) : Option Int :=
  let cs := s.toList.dropWhile jsWhitespace
  let signed : Int × List Char :=
    match cs with
    | '-' :: rest => (-1, rest)
    | '+' :: rest => (1, rest)
    | _ => (1, cs)
  let based : Nat × List Char :=
    match signed.2 with
    | '0' :: 'x' :: rest => (16, rest)
    | '0' :: 'X' :: rest => (16, rest)
    | _ => (10, signed.2)
  match digitsVal based.1 based.2 0 false with
  | some n => some (signed.1 * (n : Int))
  | none => none

/-! ### Route handlers of `/scans/{id}` -/

/-- The JSON envelope returned by the route handlers, flattened: each
optional key is `none` when the handler does not include it. -/
structure RouteResponse where
  status : Nat
  success : Bool
  error : Option String
  message : Option String
  scan : Option ScanRecord
  deletedId : Option Int
  changes : Option Nat
  deriving DecidableEq, Repr

/-- The 400 response `{success:false, error:"Invalid scan ID"}`. -/
def invalidIdResponse : RouteResponse :=
  { status := 400, success := false, error := some ("Invalid scan ID")
    message := none, scan := none, deletedId := none, changes := none }

/-- The 404 response `{success:false, error:"Scan not found"}`. -/
def notFoundResponse : RouteResponse :=
  { status := 404, success := false, error := some ("Scan not found")
    message := none, scan := none, deletedId := none, changes := none }

/-- The 500 response produced by the catch-all handler when a storage
call throws (here: the `scans` table is missing). -/
def serverErrorResponse (e : String) : RouteResponse :=
  { status := 500, success := false, error := some e
    message := some ("no such table: scans"), scan := none
    deletedId := none, changes := none }

/-- `stmt.get(scanId)`: the first row whose id equals the parsed id. -/
def findScan (n : Int) (l : List ScanRecord) : Option ScanRecord :=
  l.find? (fun r => (r.id : Int) == n)

/-- The GET `/scans/{id}` handler: parse the id (400 when `NaN`), fetch
the row (404 when absent), else 200 with the row; a storage throw is
caught as 500. -/
def routeGET (idStr : String) (s : DB) : RouteResponse × DB :=
  match parseInt idStr with
  | none => (invalidIdResponse, s)
  | some n =>
    if s.tableExists then
      match findScan n s.scans with
      | none => (notFoundResponse, s)
      | some r =>
        ({ status := 200, success := true, error := none, message := none
           scan := some r, deletedId := none, changes := none }, s)
    else (serverErrorResponse ("Failed to fetch scan"), s)

/-- The DELETE `/scans/{id}` handler: parse the id (400 when `NaN`),
check existence (404 when absent), else delete the row and answer 200
with `deletedId` and the change count. -/
def routeDELETE (idStr : String) (s : DB) : RouteResponse × DB :=
  match parseInt idStr with
  | none => (invalidIdResponse, s)
  | some n =>
    if s.tableExists then
      match findScan n s.scans with
      | none => (notFoundResponse, s)
      | some _ =>
        ({ status := 200, success := true, error := none
           message := some ("Scan deleted successfully"), scan := none
           deletedId := some n
           changes := some (s.scans.countP (fun r => (r.id : Int) == n)) },
         { s with scans := s.scans.filter (fun r => (r.id : Int) != n) })
    else (serverErrorResponse ("Failed to delete scan"), s)

/-- The parsed JSON body of a PUT request: each field is `none` when the
key is absent or null in the JSON. -/
structure UpdateBody where
  qr_data : Option String
  latitude : Option Rat
  longitude : Option Rat
  altitude : Option Rat
  accuracy : Option Rat
  deriving DecidableEq, Repr

/-- SQL `COALESCE(?, col)` for a nullable column: the bound parameter
when non-null, else the stored value. -/
def coalesceNullable (p : Option Rat) (old : Option Rat) : Option Rat :=
  match p with
  | some v => some v
  | none => old

/-- The effect of the UPDATE statement on the matched row: each column
is `COALESCE(?, col)` where the parameter is `body.field || null`. -/
def applyUpdate (b : UpdateBody) (r : ScanRecord) : ScanRecord :=
  { r with
    qr_data := (jsOrNullStr b.qr_data).getD r.qr_data
    latitude := coalesceNullable (jsOrNullNum b.latitude) r.latitude
    longitude := coalesceNullable (jsOrNullNum b.longitude) r.longitude
    altitude := coalesceNullable (jsOrNullNum b.altitude) r.altitude
    accuracy := coalesceNullable (jsOrNullNum b.accuracy) r.accuracy }

/-- The PUT `/scans/{id}` handler: parse the id (400 when `NaN`), check
existence (404 when absent), else run the coalescing UPDATE, re-read the
row and answer 200 with it and the change count. -/
def routePUT (idStr : String) (b : UpdateBody) (s : DB) :
    RouteResponse × DB :=
  match parseInt idStr with
  | none => (invalidIdResponse, s)
  | some n =>
    if s.tableExists then
      match findScan n s.scans with
      | none => (notFoundResponse, s)
      | some _ =>
        let scans1 := s.scans.map
          (fun r => if (r.id : Int) == n then applyUpdate b r else r)
        ({ status := 200, success := true, error := none
           message := some ("Scan updated successfully")
           scan := findScan n scans1, deletedId := none
           changes := some (s.scans.countP (fun r => (r.id : Int) == n)) },
         { s with scans := scans1 })
    else (serverErrorResponse ("Failed to update scan"), s)

/-! ### Capture flow -/

/-- The outcome of the POST `/scans` request issued by
`saveScanToDatabase`: the request succeeded, returned a non-ok HTTP
status, or rejected (network failure). -/
inductive FetchOutcome where
  | ok
  | httpError
  | networkError (msg : String)
  deriving DecidableEq, Repr

/-- The observable effect of `saveScanToDatabase`: console logs and
whether the call threw out of the function. -/
structure SaveResult where
  logs : List String
  threw : Bool
  deriving DecidableEq, Repr

/-- `saveScanToDatabase`: POSTs the scan; a non-ok response raises
`Failed to save scan`; every failure is caught inside the function and
only logged with `console.error`, so the function always returns
normally. -/
def saveScanToDatabase (f : FetchOutcome) : SaveResult :=
  match f with
  | .ok => { logs := [("Scan saved successfully")], threw := false }
  | .httpError =>
    { logs := [("Error saving scan: Failed to save scan")], threw := false }
  | .networkError msg =>
    { logs := [("Error saving scan: " ++ msg)], threw := false }

/-- The observable effect of `handleBarCodeScanned`: logs, banner
notifications, alert dialogs, whether the camera keeps its scan callback
active, and whether the handler threw. -/
structure CaptureOutcome where
  logs : List String
  notifications : List String
  alerts : List String
  scanningContinues : Bool
  threw : Bool
  deriving DecidableEq, Repr

/-- `handleBarCodeScanned`: records the scan, awaits
`saveScanToDatabase`, then shows the success banner; its catch block
(reached only if something in the try throws) logs and shows an error
alert.  The camera callback stays installed either way. -/
def handleBarCodeScanned (f : FetchOutcome) : CaptureOutcome :=
  let save := saveScanToDatabase f
  if save.threw then
    { logs := save.logs ++ [("Error handling scan")]
      notifications := []
      alerts := [("No se pudo procesar el código QR")]
      scanningContinues := true, threw := false }
  else
    { logs := save.logs
      notifications := [("Código QR escaneado correctamente")]
      alerts := []
      scanningContinues := true, threw := false }

/-- Equality of `Except` results is decidable componentwise. -/
instance {ε α : Type} [DecidableEq ε] [DecidableEq α] :
    DecidableEq (Except ε α) := fun a b =>
  match a, b with
  | .error e1, .error e2 => decidable_of_iff (e1 = e2) (by simp)
  | .error _, .ok _ => isFalse (by simp)
  | .ok _, .error _ => isFalse (by simp)
  | .ok x, .ok y => decidable_of_iff (x = y) (by simp)

/-! ### Concrete fixtures used by counterexamples and witnesses -/

/-- A stored scan with both coordinates present. -/
def rec1 : ScanRecord :=
  { id := 1, qr_data := "https://example.com", latitude := some 40
    longitude := some (-3), altitude := none, accuracy := none
    timestamp := 1700000000000, created_at := "2023-11-14" }

/-- A one-row database holding `rec1`. -/
def db1 : DB :=
  { tableExists := true, nextId := 2, scans := [rec1] }

/-- A PUT body that provides only `latitude`, with the value `0`. -/
def zeroLatBody : UpdateBody :=
  { qr_data := none, latitude := some 0, longitude := none
    altitude := none, accuracy := none }

/-- A scan input whose latitude is the falsy-but-valid value `0`. -/
def inpZeroLat : ScanInput :=
  { qr_data := "x", latitude := some 0, longitude := some 10
    altitude := none, accuracy := none, timestamp := 5 }

/-- The row `addScan` actually stores for `inpZeroLat`: latitude null. -/
def recZeroLatStored : ScanRecord :=
  { id := 1, qr_data := "x", latitude := none, longitude := some 10
    altitude := none, accuracy := none, timestamp := 5, created_at := "now" }

/-- The database state after inserting `inpZeroLat` into a fresh table. -/
def dbAfterZeroLat : DB :=
  { tableExists := true, nextId := 2, scans := [recZeroLatStored] }

/-- A well-formed scan input with nonzero coordinates. -/
def inpW : ScanInput :=
  { qr_data := "https://example.com", latitude := some 40
    longitude := some (-3), altitude := none, accuracy := none
    timestamp := 1700000000000 }

/-- A stored scan with id 12 and no location. -/
def rec12 : ScanRecord :=
  { id := 12, qr_data := "q", latitude := none, longitude := none
    altitude := none, accuracy := none, timestamp := 50, created_at := "t" }

/-- A one-row database holding `rec12`. -/
def db12 : DB :=
  { tableExists := true, nextId := 13, scans := [rec12] }

/-- A PUT body with every field absent. -/
def emptyBody : UpdateBody :=
  { qr_data := none, latitude := none, longitude := none
    altitude := none, accuracy := none }

/-- A scan input with no location at all. -/
def inpNoLoc : ScanInput :=
  { qr_data := "p", latitude := none, longitude := none
    altitude := none, accuracy := none, timestamp := 3 }

/-- The row stored for `inpNoLoc`. -/
def recNoLoc : ScanRecord :=
  { id := 1, qr_data := "p", latitude := none, longitude := none
    altitude := none, accuracy := none, timestamp := 3, created_at := "t" }

/-- The database holding exactly `recNoLoc`. -/
def dbNoLoc : DB :=
  { tableExists := true, nextId := 2, scans := [recNoLoc] }

/-- A PUT body providing only a (nonzero) latitude. -/
def latOnlyBody : UpdateBody :=
  { qr_data := none, latitude := some 5, longitude := none
    altitude := none, accuracy := none }

/-- `recNoLoc` after the latitude-only update: latitude present,
longitude still absent. -/
def recLatOnly : ScanRecord :=
  { recNoLoc with latitude := some 5 }

/-- Two stored scans with distinct timestamps, listed in ascending
timestamp order. -/
def recA : ScanRecord :=
  { id := 1, qr_data := "a", latitude := none, longitude := none
    altitude := none, accuracy := none, timestamp := 10, created_at := "t1" }

/-- See `recA`. -/
def recB : ScanRecord :=
  { id := 2, qr_data := "b", latitude := none, longitude := none
    altitude := none, accuracy := none, timestamp := 20, created_at := "t2" }

/-- A two-row database whose rows are stored in ascending timestamp
order, so that a descending sort must reverse them. -/
def dbAB : DB :=
  { tableExists := true, nextId := 3, scans := [recA, recB] }

/-! ### Helper lemmas -/

/-- `x || null` is the identity on nullable numbers other than `0`. -/
theorem jsOrNullNum_eq_self {o : Option Rat} (h : o ≠ some 0) :
    jsOrNullNum o = o := by
  cases o with
  | none => rfl
  | some q =>
    simp only [jsOrNullNum]
    rw [if_neg]
    intro hq
    exact h (by rw [hq])

/-- `rowsAffected > 0` as a boolean equals `List.any`. -/
theorem decide_countP_pos_eq_any (p : ScanRecord → Bool)
    (l : List ScanRecord) : decide (0 < l.countP p) = l.any p := by
  by_cases h : 0 < l.countP p
  · rw [decide_eq_true h]
    exact (List.any_eq_true.2 (List.countP_pos_iff.1 h)).symm
  · rw [decide_eq_false h]
    have hna : ¬ l.any p = true :=
      fun ha => h (List.countP_pos_iff.2 (List.any_eq_true.1 ha))
    exact (Bool.eq_false_iff.2 hna).symm

/-- After `initDatabase` the `scans` table exists. -/
theorem initDatabase_tableExists (s : DB) :
    (initDatabase s).tableExists = true := by
  unfold initDatabase
  split
  · assumption
  · rfl

/-- `initDatabase` is the identity on a database whose table exists. -/
theorem initDatabase_of_tableExists {s : DB} (h : s.tableExists = true) :
    initDatabase s = s := by
  unfold initDatabase
  rw [if_pos h]

/-- A list that is sorted weakly descending in timestamp and has
pairwise-distinct timestamps is strictly descending. -/
theorem pairwise_lt_of_sorted_ne {l : List ScanRecord}
    (hs : List.Pairwise tsGE l)
    (hne : List.Pairwise (fun a b => a.timestamp ≠ b.timestamp) l) :
    List.Pairwise (fun a b => b.timestamp < a.timestamp) l := by
  induction l with
  | nil => exact List.Pairwise.nil
  | cons a t ih =>
    cases hs with
    | cons ha hs2 =>
      cases hne with
      | cons na hne2 =>
        exact List.Pairwise.cons
          (fun b hb => lt_of_le_of_ne (ha b hb) (Ne.symm (na b hb)))
          (ih hs2 hne2)

/-! ### C1 -/

/-- **C1** (code bug): the PUT handler binds `body.latitude || null`, so
the provided falsy-but-valid latitude `0` is coalesced away and the
stored latitude `40` survives the update, contradicting the claimed
"replaces the stored value of each field provided in the request body
... including falsy-but-valid ones such as latitude 0". -/
theorem routePUT_zero_latitude_ignored :
    zeroLatBody.latitude = some 0 ∧
    (routePUT ("1") zeroLatBody db1).1.success = true ∧
    (routePUT ("1") zeroLatBody db1).2 = db1 ∧
    (routePUT ("1") zeroLatBody db1).1.scan = some rec1 ∧
    rec1.latitude = some 40 := by
  decide

/-! ### C2 -/

/-- **C2** (counterexample): creating a scan whose latitude is the valid
value `0` stores latitude NULL (the simple `addScan` binds
`scanData.latitude || null`), so the listed record does not match the
input on all fields. -/
theorem addScan_zero_latitude_dropped :
    inpZeroLat.latitude = some 0 ∧
    addScan inpZeroLat ("now") (initDatabase dbEmpty) =
      .ok (recZeroLatStored, dbAfterZeroLat) ∧
    getScans dbAfterZeroLat = .ok [recZeroLatStored] ∧
    recZeroLatStored.latitude = none ∧
    recZeroLatStored.latitude ≠ inpZeroLat.latitude := by
  decide

/-- **C2** (amended): for every scan input none of whose optional fields
is the falsy value `0`, `addScan` on an initialized database succeeds
and returns a record carrying exactly the input fields and the next
AUTOINCREMENT id, and `getScans` on the resulting state lists that
record. -/
theorem addScan_then_getScans_contains (inp : ScanInput) (now : String)
    (s : DB) (ht : s.tableExists = true)
    (hla : inp.latitude ≠ some 0) (hlo : inp.longitude ≠ some 0)
    (hal : inp.altitude ≠ some 0) (hac : inp.accuracy ≠ some 0) :
    ∃ r s1, addScan inp now s = .ok (r, s1) ∧
      r.id = s.nextId ∧ r.qr_data = inp.qr_data ∧
      r.latitude = inp.latitude ∧ r.longitude = inp.longitude ∧
      r.altitude = inp.altitude ∧ r.accuracy = inp.accuracy ∧
      r.timestamp = inp.timestamp ∧ r.created_at = now ∧
      ∃ l, getScans s1 = .ok l ∧ r ∈ l := by
  refine ⟨mkScanRow inp now s.nextId, addScanDB inp now s, ?_, rfl, rfl,
    jsOrNullNum_eq_self hla, jsOrNullNum_eq_self hlo,
    jsOrNullNum_eq_self hal, jsOrNullNum_eq_self hac, rfl, rfl,
    sortByTimestampDesc (addScanDB inp now s).scans, ?_, ?_⟩
  · unfold addScan
    rw [if_pos ht]
  · unfold getScans
    rw [if_pos]
    exact ht
  · rw [sortByTimestampDesc,
      (List.perm_insertionSort tsGE (addScanDB inp now s).scans).mem_iff]
    exact List.mem_append_right _ (List.mem_singleton_self _)

/-- Witness for C2 (amended) at a concrete input. -/
theorem addScan_then_getScans_contains_witness :
    ∃ r s1, addScan inpW ("now") (initDatabase dbEmpty) = .ok (r, s1) ∧
      r.id = (initDatabase dbEmpty).nextId ∧ r.qr_data = inpW.qr_data ∧
      r.latitude = inpW.latitude ∧ r.longitude = inpW.longitude ∧
      r.altitude = inpW.altitude ∧ r.accuracy = inpW.accuracy ∧
      r.timestamp = inpW.timestamp ∧ r.created_at = ("now") ∧
      ∃ l, getScans s1 = .ok l ∧ r ∈ l :=
  addScan_then_getScans_contains inpW ("now") (initDatabase dbEmpty)
    (by decide) (by decide) (by decide) (by decide) (by decide)

/-! ### C3 -/

/-- **C3** (counterexample): the simple `deleteScan` resolves `true` for
the nonexistent id 999999 on an initialized empty database, although no
row was removed: its success callback ignores `rowsAffected`. -/
theorem deleteScan_nonexistent_returns_true :
    (initDatabase dbEmpty).scans = [] ∧
    deleteScan 999999 (initDatabase dbEmpty) = (true, initDatabase dbEmpty) := by
  decide

/-- **C3** (amended): the guarded `deleteScan` resolves
`rowsAffected > 0`, i.e. `true` exactly when a row with the id existed
(and it removes exactly the matching rows), while the simple
`deleteScan` resolves `true` on every initialized database whether or
not a row matched; neither raises an error. -/
theorem deleteScan_return_semantics (id : Nat) (s : DB) :
    (deleteScanGuarded id s).1 =
      (initDatabase s).scans.any (fun r => r.id == id) ∧
    (deleteScanGuarded id s).2.scans =
      (initDatabase s).scans.filter (fun r => r.id != id) ∧
    (deleteScan id (initDatabase s)).1 = true := by
  refine ⟨?_, rfl, ?_⟩
  · exact decide_countP_pos_eq_any _ _
  · unfold deleteScan
    rw [if_pos (initDatabase_tableExists s)]

/-! ### C8 -/

/-- **C8** (confirmed): `initDatabase` is idempotent — its second and
every later application is the identity (`CREATE TABLE IF NOT EXISTS`),
so repeated calls leave the schema and all stored rows unchanged, and
every call leaves the table existing. -/
theorem initDatabase_idempotent (s : DB) (n : Nat) :
    initDatabase (initDatabase s) = initDatabase s ∧
    initDatabase^[n + 1] s = initDatabase s ∧
    (initDatabase s).tableExists = true := by
  have h1 : ∀ t : DB, initDatabase (initDatabase t) = initDatabase t :=
    fun t => initDatabase_of_tableExists (initDatabase_tableExists t)
  refine ⟨h1 s, ?_, initDatabase_tableExists s⟩
  induction n with
  | zero => rfl
  | succ m ih =>
    rw [Function.iterate_succ_apply']
    rw [ih, h1]

/-! ### C9 -/

/-- **C9** (counterexample): on a network failure of the POST, the
capture handler catches and logs the error and keeps scanning, but no
user notification surfaces the failure — the generic success banner is
shown and no alert is raised, contradicting "surfaced as a non-fatal
user notification". -/
theorem save_failure_not_surfaced :
    handleBarCodeScanned (.networkError ("Network request failed")) =
      { logs := [("Error saving scan: Network request failed")]
        notifications := [("Código QR escaneado correctamente")]
        alerts := []
        scanningContinues := true, threw := false } := by
  decide

/-- **C9** (amended): for every outcome of the persistence request,
`saveScanToDatabase` returns normally (the failure is caught inside it
and only logged), the capture handler completes without throwing and
keeps scanning, raises no alert, and always shows the generic success
banner — the failure itself is never surfaced to the user. -/
theorem capture_never_blocked (f : FetchOutcome) :
    (saveScanToDatabase f).threw = false ∧
    (handleBarCodeScanned f).threw = false ∧
    (handleBarCodeScanned f).scanningContinues = true ∧
    (handleBarCodeScanned f).alerts = [] ∧
    (handleBarCodeScanned f).notifications =
      [("Código QR escaneado correctamente")] := by
  cases f <;> exact ⟨rfl, rfl, rfl, rfl, rfl⟩

/-! ### C4 -/

/-- **C4** (confirmed): on a database whose table exists, `getScans`
returns (without error) a permutation of all stored rows that is sorted
weakly descending in timestamp, strictly descending whenever the stored
timestamps are pairwise distinct, and empty exactly on an empty table;
the guarded variant returns the same sorted list after its internal
`initDatabase`. -/
theorem getScans_sorted_desc (s : DB) (ht : s.tableExists = true) :
    ∃ l, getScans s = .ok l ∧ l.Perm s.scans ∧ List.Sorted tsGE l ∧
      (List.Pairwise (fun a b => a.timestamp ≠ b.timestamp) s.scans →
        List.Pairwise (fun a b => b.timestamp < a.timestamp) l) ∧
      (s.scans = [] → l = []) ∧
      (getScansGuarded s).1 = sortByTimestampDesc s.scans := by
  refine ⟨sortByTimestampDesc s.scans, ?_, List.perm_insertionSort tsGE s.scans,
    List.sorted_insertionSort tsGE s.scans, ?_, ?_, ?_⟩
  · unfold getScans
    rw [if_pos ht]
  · intro hne
    refine pairwise_lt_of_sorted_ne (List.sorted_insertionSort tsGE s.scans) ?_
    have hsym : ∀ {x y : ScanRecord},
        x.timestamp ≠ y.timestamp → y.timestamp ≠ x.timestamp :=
      fun hxy => Ne.symm hxy
    exact ((List.perm_insertionSort tsGE s.scans).pairwise_iff hsym).2 hne
  · intro h
    rw [sortByTimestampDesc, h]
    rfl
  · simp only [getScansGuarded]
    rw [initDatabase_of_tableExists ht]

/-- Witness for C4 at a two-row database stored in ascending timestamp
order. -/
theorem getScans_sorted_desc_witness :
    ∃ l, getScans dbAB = .ok l ∧ l.Perm dbAB.scans ∧ List.Sorted tsGE l ∧
      (List.Pairwise (fun a b => a.timestamp ≠ b.timestamp) dbAB.scans →
        List.Pairwise (fun a b => b.timestamp < a.timestamp) l) ∧
      (dbAB.scans = [] → l = []) ∧
      (getScansGuarded dbAB).1 = sortByTimestampDesc dbAB.scans :=
  getScans_sorted_desc dbAB (by decide)

/-! ### C5 -/

/-- **C5** (counterexample): the id `"12abc"` is not a numeric string,
yet JavaScript `parseInt` reads its numeric prefix `12`, so the GET
handler reaches storage and answers 200 with the stored scan of id 12
instead of the claimed 400 rejection. -/
theorem route_numeric_prefix_not_rejected :
    parseInt ("12abc") = some 12 ∧
    (routeGET ("12abc") db12).1.status = 200 ∧
    (routeGET ("12abc") db12).1.success = true ∧
    (routeGET ("12abc") db12).1.scan = some rec12 := by
  decide

/-- **C5** (amended): for every id string on which `parseInt` yields
`NaN` (no parsable leading integer), each of the GET, DELETE and PUT
handlers answers 400 with `{success:false, error:"Invalid scan ID"}`
and returns the database unchanged — for every database state, even one
with no `scans` table, showing the rejection happens before any storage
access. -/
theorem routes_invalid_id (idStr : String) (b : UpdateBody) (s : DB)
    (h : parseInt idStr = none) :
    routeGET idStr s = (invalidIdResponse, s) ∧
    routeDELETE idStr s = (invalidIdResponse, s) ∧
    routePUT idStr b s = (invalidIdResponse, s) ∧
    invalidIdResponse.status = 400 ∧
    invalidIdResponse.success = false ∧
    invalidIdResponse.error = some ("Invalid scan ID") := by
  unfold routeGET routeDELETE routePUT
  rw [h]
  exact ⟨rfl, rfl, rfl, rfl, rfl, rfl⟩

/-- Witness for C5 (amended) at the id `"abc"` and a database with no
`scans` table. -/
theorem routes_invalid_id_witness :
    routeGET ("abc") dbEmpty = (invalidIdResponse, dbEmpty) ∧
    routeDELETE ("abc") dbEmpty = (invalidIdResponse, dbEmpty) ∧
    routePUT ("abc") emptyBody dbEmpty = (invalidIdResponse, dbEmpty) ∧
    invalidIdResponse.status = 400 ∧
    invalidIdResponse.success = false ∧
    invalidIdResponse.error = some ("Invalid scan ID") :=
  routes_invalid_id ("abc") emptyBody dbEmpty (by decide)

/-! ### C6 -/

/-- **C6** (confirmed): for every id string parsing to a number that
matches no stored row, each of the GET, DELETE and PUT handlers answers
404 with `{success:false, error:"Scan not found"}` — a status distinct
from 500 — and leaves the database unchanged. -/
theorem routes_not_found (idStr : String) (n : Int) (b : UpdateBody)
    (s : DB) (ht : s.tableExists = true) (hp : parseInt idStr = some n)
    (hn : ∀ r ∈ s.scans, (r.id : Int) ≠ n) :
    routeGET idStr s = (notFoundResponse, s) ∧
    routeDELETE idStr s = (notFoundResponse, s) ∧
    routePUT idStr b s = (notFoundResponse, s) ∧
    notFoundResponse.status = 404 ∧ notFoundResponse.success = false ∧
    notFoundResponse.error = some ("Scan not found") ∧
    notFoundResponse.status ≠ 500 := by
  have hfind : findScan n s.scans = none := by
    unfold findScan
    rw [List.find?_eq_none]
    intro r hr hb
    exact hn r hr (eq_of_beq hb)
  refine ⟨?_, ?_, ?_, rfl, rfl, rfl, by decide⟩
  · simp [routeGET, hp, ht, hfind]
  · simp [routeDELETE, hp, ht, hfind]
  · simp [routePUT, hp, ht, hfind]

/-- Witness for C6 at the nonexistent id 999999. -/
theorem routes_not_found_witness :
    routeGET ("999999") db12 = (notFoundResponse, db12) ∧
    routeDELETE ("999999") db12 = (notFoundResponse, db12) ∧
    routePUT ("999999") emptyBody db12 = (notFoundResponse, db12) ∧
    notFoundResponse.status = 404 ∧ notFoundResponse.success = false ∧
    notFoundResponse.error = some ("Scan not found") ∧
    notFoundResponse.status ≠ 500 :=
  routes_not_found ("999999") 999999 emptyBody db12 (by decide) (by decide)
    (by decide)

/-! ### C7 -/

/-- **C7** (counterexample): a record created with no location (a
reachable state) can be updated through PUT with only a latitude, after
which latitude is present but longitude absent — the claimed
"latitude/longitude both present or both absent" invariant is not
preserved by the update operation. -/
theorem routePUT_breaks_location_pairing :
    addScan inpNoLoc ("t") (initDatabase dbEmpty) = .ok (recNoLoc, dbNoLoc) ∧
    (routePUT ("1") latOnlyBody dbNoLoc).2.scans = [recLatOnly] ∧
    recLatOnly.latitude.isSome = true ∧
    recLatOnly.longitude.isSome = false := by
  decide

/-- The id part of the data-model invariant: stored ids are pairwise
distinct and below the AUTOINCREMENT counter. -/
def idsOK (s : DB) : Prop :=
  (s.scans.map (fun r => r.id)).Nodup ∧ ∀ r ∈ s.scans, r.id < s.nextId

/-- Removing rows never breaks the id invariant. -/
theorem idsOK_filter (s : DB) (p : ScanRecord → Bool) (h : idsOK s) :
    idsOK { s with scans := s.scans.filter p } := by
  constructor
  · exact List.Nodup.sublist
      (List.Sublist.map (fun r => r.id) (List.filter_sublist s.scans)) h.1
  · intro r hr
    exact h.2 r (List.mem_of_mem_filter hr)

/-- Inserting a row with the fresh AUTOINCREMENT id preserves the id
invariant. -/
theorem idsOK_addScan (inp : ScanInput) (now : String) (s : DB)
    (h : idsOK s) : idsOK (addScanDB inp now s) := by
  constructor
  · simp only [addScanDB, List.map_append, List.map_cons, List.map_nil]
    rw [List.nodup_append]
    refine ⟨h.1, List.nodup_singleton _, ?_⟩
    intro a ha hb
    obtain ⟨r, hr, hid⟩ := List.mem_map.1 ha
    have hlt := h.2 r hr
    have ha2 : a = s.nextId := List.mem_singleton.1 hb
    rw [hid] at hlt
    rw [ha2] at hlt
    exact absurd hlt (lt_irrefl _)
  · intro r hr
    rcases List.mem_append.1 hr with h1 | h2
    · exact Nat.lt_succ_of_lt (h.2 r h1)
    · rw [List.mem_singleton.1 h2]
      exact Nat.lt_succ_self _

/-- **C7** (amended): the id-related invariants do hold — `initDatabase`,
`addScan` (which assigns the fresh id `nextId`), both delete variants and
the PUT update all preserve uniqueness and boundedness of ids, and the
PUT update changes no stored id (immutability); `qr_data` and
`timestamp` are always present by schema (non-optional fields, and the
coalescing UPDATE can never null them).  Only the latitude/longitude
pairing fails, as the counterexample shows. -/
theorem ops_preserve_id_invariants (s : DB) (inp : ScanInput)
    (now : String) (idN : Nat) (idStr : String) (b : UpdateBody)
    (ht : s.tableExists = true) (h : idsOK s) :
    idsOK (initDatabase s) ∧
    addScan inp now s = .ok (mkScanRow inp now s.nextId, addScanDB inp now s) ∧
    (mkScanRow inp now s.nextId).id = s.nextId ∧
    idsOK (addScanDB inp now s) ∧
    idsOK (deleteScanGuarded idN s).2 ∧
    idsOK (routeDELETE idStr s).2 ∧
    idsOK (routePUT idStr b s).2 ∧
    (routePUT idStr b s).2.scans.map (fun r => r.id) =
      s.scans.map (fun r => r.id) := by
  have hinit : initDatabase s = s := initDatabase_of_tableExists ht
  have hputmap : (routePUT idStr b s).2.scans.map (fun r => r.id) =
      s.scans.map (fun r => r.id) := by
    cases hp : parseInt idStr with
    | none => simp [routePUT, hp]
    | some n =>
      cases hf : findScan n s.scans with
      | none => simp [routePUT, hp, ht, hf]
      | some r0 =>
        simp only [routePUT, hp, ht, if_true, hf]
        rw [List.map_map]
        refine List.map_congr_left ?_
        intro r hr
        by_cases hc : ((r.id : Int) == n) = true <;>
          simp [Function.comp, hc, applyUpdate]
  have hnext : (routePUT idStr b s).2.nextId = s.nextId := by
    cases hp : parseInt idStr with
    | none => simp [routePUT, hp]
    | some n =>
      cases hf : findScan n s.scans with
      | none => simp [routePUT, hp, ht, hf]
      | some r0 => simp [routePUT, hp, ht, hf]
  have hput : idsOK (routePUT idStr b s).2 := by
    constructor
    · rw [hputmap]
      exact h.1
    · intro r hr
      have hmem : r.id ∈ (routePUT idStr b s).2.scans.map (fun r => r.id) :=
        List.mem_map_of_mem _ hr
      rw [hputmap] at hmem
      obtain ⟨r0, hr0, hid⟩ := List.mem_map.1 hmem
      rw [hnext, ← hid]
      exact h.2 r0 hr0
  have hdel : idsOK (routeDELETE idStr s).2 := by
    cases hp : parseInt idStr with
    | none => simpa [routeDELETE, hp] using h
    | some n =>
      cases hf : findScan n s.scans with
      | none => simpa [routeDELETE, hp, ht, hf] using h
      | some r0 =>
        have h2 := idsOK_filter s (fun r => (r.id : Int) != n) h
        simpa [routeDELETE, hp, ht, hf] using h2
  have hdg : idsOK (deleteScanGuarded idN s).2 := by
    have h2 := idsOK_filter s (fun r => r.id != idN) h
    simpa [deleteScanGuarded, hinit] using h2
  refine ⟨by rw [hinit]; exact h, ?_, rfl, idsOK_addScan inp now s h,
    hdg, hdel, hput, hputmap⟩
  unfold addScan
  rw [if_pos ht]

/-- Witness for C7 (amended) at a concrete one-row database. -/
theorem ops_preserve_id_invariants_witness :
    idsOK (initDatabase db12) ∧
    addScan inpW ("now") db12 =
      .ok (mkScanRow inpW ("now") db12.nextId, addScanDB inpW ("now") db12) ∧
    (mkScanRow inpW ("now") db12.nextId).id = db12.nextId ∧
    idsOK (addScanDB inpW ("now") db12) ∧
    idsOK (deleteScanGuarded 3 db12).2 ∧
    idsOK (routeDELETE ("12") db12).2 ∧
    idsOK (routePUT ("12") latOnlyBody db12).2 ∧
    (routePUT ("12") latOnlyBody db12).2.scans.map (fun r => r.id) =
      db12.scans.map (fun r => r.id) :=
  ops_preserve_id_invariants db12 inpW ("now") 3 ("12") latOnlyBody
    (by decide) (⟨by decide, by decide⟩ : idsOK db12)

/-! ### C10 -/

/-- **C10** (confirmed): for every id string, request body and database
state, the PUT handler relates the old and new row lists pointwise: each
row keeps its `id`, `timestamp` and `created_at` (only `qr_data`,
`latitude`, `longitude`, `altitude`, `accuracy` can change), and every
row whose id is not the requested one is completely unchanged. -/
theorem routePUT_frame (idStr : String) (b : UpdateBody) (s : DB) :
    List.Forall₂
      (fun r rNew =>
        rNew.id = r.id ∧ rNew.timestamp = r.timestamp ∧
        rNew.created_at = r.created_at ∧
        (parseInt idStr ≠ some ((r.id : Nat) : Int) → rNew = r))
      s.scans (routePUT idStr b s).2.scans := by
  have hrefl : ∀ (Q : ScanRecord → Prop) (l : List ScanRecord),
      List.Forall₂
        (fun r rNew =>
          rNew.id = r.id ∧ rNew.timestamp = r.timestamp ∧
          rNew.created_at = r.created_at ∧ (Q r → rNew = r)) l l :=
    fun _ l => List.forall₂_same.2 (fun _ _ => ⟨rfl, rfl, rfl, fun _ => rfl⟩)
  cases hp : parseInt idStr with
  | none =>
    simp only [routePUT, hp]
    exact hrefl _ s.scans
  | some n =>
    by_cases ht : s.tableExists = true
    · cases hf : findScan n s.scans with
      | none =>
        simp only [routePUT, hp, hf]
        rw [if_pos ht]
        exact hrefl _ s.scans
      | some r0 =>
        simp only [routePUT, hp, hf]
        rw [if_pos ht]
        rw [List.forall₂_map_right_iff]
        refine List.forall₂_same.2 (fun x hx => ?_)
        by_cases hc : ((x.id : Int) == n) = true
        · simp only [hc, if_true]
          refine ⟨rfl, rfl, rfl, fun hne => absurd ?_ hne⟩
          rw [eq_of_beq hc]
        · simp only [hc, if_false]
          exact ⟨rfl, rfl, rfl, fun _ => rfl⟩
    · simp only [routePUT, hp]
      rw [if_neg ht]
      exact hrefl _ s.scans

end QRScanner
